import Mathlib

/-!
Verification of the FSK Caller-ID decoder (ciddeco.c, ciddeco.h, fskmodem.h).

The byte-level protocol state machine decode_CID_msg, the field extractor
get_CID_info, and the sample loop of callerid_feed are embedded shallowly.
C byte values are Nat, the C int data_field counter is Int (it is decremented
and can go negative), the C int flags used as booleans are Bool, and the
rawdata array is a total function Nat to Nat updated pointwise, matching the
calloc zero initialisation.  The function-local static variables of
decode_CID_msg are gathered in the Statics structure, passed and returned
explicitly, since they persist across calls and across sessions.
-/

namespace CID

/-! Protocol constants from ciddeco.c lines 28 to 43. -/

def MDMF : Nat := 0x80

def SDMF : Nat := 0x04

def DATE_TIME : Nat := 0x01

def NAME : Nat := 0x07

def NO_NAME : Nat := 0x08

def NUM : Nat := 0x02

def NO_NUM : Nat := 0x04

def MESSAGE_TYPE : Nat := 0

def MESSAGE_LENGTH : Nat := 1

def DATA_TYPE : Nat := 2

def DATA_LENGTH : Nat := 3

def DATA : Nat := 4

def CHECKSUM : Nat := 5

def UNKNOWN : Nat := 10

/-- Size of the rawdata array in struct callerid_state (ciddeco.h line 73). -/
def RAWDATA_CAPACITY : Nat := 256

/-- The function-local static variables of decode_CID_msg (ciddeco.c lines
164 to 167): name_field, number_field, msg_type, msg_off, data_field.  They
are zero initialised at program start and persist across calls and across
decode sessions. -/
structure Statics where
  name_field : Bool
  number_field : Bool
  msg_type : Nat
  msg_off : Nat
  data_field : Int
deriving DecidableEq

/-- Initial values of the static variables at program start: all zero. -/
def initStatics : Statics := ⟨false, false, 0, 0, 0⟩

/-- The per-session decoder fields of struct callerid_state used by
decode_CID_msg: sawflag, cksum, rawdata.  rawdata is modelled as a total
function, zero everywhere initially (calloc). -/
structure Cid where
  sawflag : Nat
  cksum : Nat
  rawdata : Nat → Nat

/-- A freshly created session: callerid_new calloc-zeroes the structure and
sets sawflag to 0 (ciddeco.c lines 68 to 81). -/
def Cid.new : Cid := ⟨MESSAGE_TYPE, 0, fun _ => 0⟩

/-- The action taken in the DATA state when the field counter reaches zero
(ciddeco.c lines 229 to 239): decide the next sawflag, clearing both field
flags for MDMF but only number_field for SDMF. -/
def dataFinish (st : Statics) : Nat × Statics :=
  if st.msg_type = MDMF ∧ st.name_field = true ∧ st.number_field = true then
    (CHECKSUM, { st with name_field := false, number_field := false })
  else if st.msg_type = SDMF ∧ st.number_field = true then
    (CHECKSUM, { st with number_field := false })
  else
    (DATA_TYPE, st)

/-- One call of decode_CID_msg (ciddeco.c lines 160 to 257) on byte a.
Every call first stores the byte at rawdata[msg_off] and increments msg_off;
the switch on sawflag then updates the state; every non-returning case adds
the byte to cksum; the CHECKSUM case resets msg_off and returns 1 (for both
checksum outcomes, which differ only in a printf); the UNKNOWN and default
cases return -1. -/
def decode_CID_msg (cid : Cid) (st : Statics) (a : Nat) : Cid × Statics × Int :=
  let cid0 : Cid := { cid with rawdata := Function.update cid.rawdata st.msg_off a }
  let st0 : Statics := { st with msg_off := st.msg_off + 1 }
  if cid0.sawflag = MESSAGE_TYPE then
    if a = MDMF ∨ a = SDMF then
      ({ cid0 with sawflag := MESSAGE_LENGTH, cksum := cid0.cksum + a },
       { st0 with msg_type := a }, 0)
    else
      ({ cid0 with sawflag := UNKNOWN, cksum := cid0.cksum + a }, st0, 0)
  else if cid0.sawflag = MESSAGE_LENGTH then
    ({ cid0 with sawflag := DATA_TYPE, cksum := cid0.cksum + a }, st0, 0)
  else if cid0.sawflag = DATA_TYPE then
    let st1 : Statics :=
      { st0 with
        number_field := if a = NUM ∨ a = NO_NUM then true else st0.number_field,
        name_field := if a = NAME ∨ a = NO_NAME then true else st0.name_field }
    if a = DATE_TIME ∨ a = NUM ∨ a = NO_NUM ∨ a = NAME ∨ a = NO_NAME then
      ({ cid0 with sawflag := DATA_LENGTH, cksum := cid0.cksum + a }, st1, 0)
    else
      ({ cid0 with sawflag := UNKNOWN, cksum := cid0.cksum + a }, st1, 0)
  else if cid0.sawflag = DATA_LENGTH then
    ({ cid0 with sawflag := DATA, cksum := cid0.cksum + a },
     { st0 with data_field := (a : Int) }, 0)
  else if cid0.sawflag = DATA then
    if st0.data_field - 1 = 0 then
      let fin := dataFinish { st0 with data_field := st0.data_field - 1 }
      ({ cid0 with sawflag := fin.1, cksum := cid0.cksum + a }, fin.2, 0)
    else
      ({ cid0 with cksum := cid0.cksum + a },
       { st0 with data_field := st0.data_field - 1 }, 0)
  else if cid0.sawflag = CHECKSUM then
    (cid0, { st0 with msg_off := 0 }, 1)
  else
    (cid0, st0, -1)

/-- The checksum comparison of ciddeco.c line 243:
data_byte == (256 - (cid->cksum & 0xff)).  Note that when the accumulated
sum is a multiple of 256 the right hand side is 256, which no byte equals. -/
def checksum_ok (cksum data_byte : Nat) : Bool :=
  data_byte = 256 - cksum % 256

/-- Feed a list of bytes one by one into decode_CID_msg, stopping at the
first nonzero return, exactly as the byte-forwarding loop of callerid_feed
(ciddeco.c lines 295 to 301) does. -/
def decode_list : Cid → Statics → List Nat → Cid × Statics × Int
  | cid, st, [] => (cid, st, 0)
  | cid, st, b :: bs =>
    let r := decode_CID_msg cid st b
    if r.2.2 = 0 then decode_list r.1 r.2.1 bs else r

/-! Field extraction, get_CID_info (ciddeco.c lines 101 to 136). -/

/-- The months table of get_CID_info: exactly 12 entries. -/
def months : List String :=
  ["January", "February", "March", "April", "May", "June",
   "July", "August", "September", "October", "November", "December"]

/-- The output record written by get_CID_info into cid_data. -/
structure CidData where
  date : String
  call_time : String
  name : String
  number : String
deriving DecidableEq

/-- A cid_data whose fields hold empty strings. -/
def emptyData : CidData := ⟨"", "", "", ""⟩

/-- A raw byte printed with the %c conversion. -/
def byteChar (n : Nat) : Char := Char.ofNat n

/-- The character-by-character sprintf loops of get_CID_info: read len bytes
of rawdata starting at start and form a string. -/
def readBytes (raw : Nat → Nat) (start len : Nat) : String :=
  String.mk ((List.range len).map fun i => byteChar (raw (start + i)))

/-- The months[month - 1] access of ciddeco.c line 112.  The C code performs
the array read with no bounds check; an index outside the 12-entry table is
an out-of-bounds read (undefined behaviour), modelled as none. -/
def monthName (month : Int) : Option String :=
  if 1 ≤ month ∧ month ≤ 12 then some (months.getD (month - 1).toNat "") else none

/-- get_CID_info (ciddeco.c lines 101 to 136) on the rawdata buffer: the
month is decoded from the ASCII digits at offsets 4 and 5, the day from
offsets 6 and 7, the time from offsets 8 to 11; then the marker at offset 12
selects the name-first or number-first layout; any other marker writes
neither name nor number (d keeps its previous field contents, as the C
leaves the caller buffer untouched).  The result is none exactly when the
months table read is out of bounds. -/
def get_CID_info (raw : Nat → Nat) (d : CidData) : Option CidData :=
  let month : Int := ((raw 4 : Int) - 48) * 10 + ((raw 5 : Int) - 48)
  (monthName month).map fun m =>
    let dateStr := m ++ " " ++ String.mk [byteChar (raw 6), byteChar (raw 7)]
    let timeStr := String.mk [byteChar (raw 8), byteChar (raw 9)] ++
      " hr : " ++ String.mk [byteChar (raw 10), byteChar (raw 11)] ++ " min"
    if raw 12 = NAME then
      let i := raw 13
      { d with date := dateStr, call_time := timeStr,
               name := readBytes raw 14 i,
               number := readBytes raw (16 + i) (raw (15 + i)) }
    else if raw 12 = NUM then
      let j := raw 13
      { d with date := dateStr, call_time := timeStr,
               number := readBytes raw 14 j,
               name := readBytes raw (16 + j) (raw (15 + j)) }
    else
      { d with date := dateStr, call_time := timeStr }

/-! The sample-stream loop of callerid_feed (ciddeco.c lines 271 to 310).
The bit recoverer fsk_serial lives in fskmodem.c, which is not among the
sources (only its declaration in fskmodem.h is), so it is modelled
abstractly from the specification. -/

/-- Modelled from the spec: fsk_serial, the Bit Recoverer implemented in
the absent file fskmodem.c, is per sections 4.1 and 4.2 of the
specification a function of its own state and the available sample window
that consumes a variable number of samples and yields either no byte yet
or one completed byte.  It is taken as an arbitrary function of that
shape: state and window in, new state, consumed-sample count and optional
byte out. -/
def FskSerial (σ : Type) := σ → List Int → σ × Nat × Option Nat

/-- The while loop of callerid_feed (ciddeco.c lines 291 to 302): while at
least ispb * 12 samples remain, run the bit recoverer on the window,
advance past the samples it consumed, and forward any completed byte to
decode_CID_msg, returning its verdict as soon as it is nonzero; when fewer
than ispb * 12 samples remain, return 0 with the residual samples.  The
fuel argument bounds the number of iterations; none models a bit recoverer
that stops consuming samples, on which the C loop would not terminate. -/
def feed_loop {σ : Type} (fs : FskSerial σ) (ispb : Nat) :
    Nat → σ → Cid → Statics → List Int →
      Option (Int × σ × Cid × Statics × List Int)
  | 0, _, _, _, _ => none
  | fuel + 1, fk, cid, st, buf =>
    if ispb * 12 ≤ buf.length then
      match fs fk buf with
      | (fk1, c, none) => feed_loop fs ispb fuel fk1 cid st (buf.drop c)
      | (fk1, c, some b) =>
        match decode_CID_msg cid st b with
        | (cid1, st1, r) =>
          if r = 0 then feed_loop fs ispb fuel fk1 cid1 st1 (buf.drop c)
          else some (r, fk1, cid1, st1, buf.drop c)
    else
      some (0, fk, cid, st, buf)

/-- A decode session: bit recoverer state, the decoder fields, the statics
and the carry-over sample buffer oldstuff.  oldstuff is kept in samples;
the C stores it as bytes with oldlen = 2 * samples (ciddeco.h lines 74 to
75). -/
structure Session (σ : Type) where
  fsk : σ
  cid : Cid
  st : Statics
  oldstuff : List Int

/-- callerid_feed (ciddeco.c lines 271 to 310) at sample granularity: the
new samples are appended after the carried-over ones (lines 284 to 289),
the window loop runs, and on verdict 0 the residual samples become the new
carry-over buffer (lines 303 to 307); a terminal verdict returns at once,
leaving oldstuff as it was.  The fuel buf.length + 1 covers every bit
recoverer that consumes at least one sample per invocation. -/
def callerid_feed {σ : Type} (fs : FskSerial σ) (ispb : Nat)
    (s : Session σ) (input : List Int) : Option (Int × Session σ) :=
  match feed_loop fs ispb ((s.oldstuff ++ input).length + 1) s.fsk s.cid s.st
      (s.oldstuff ++ input) with
  | none => none
  | some (r, fk, cid, st, leftover) =>
    if r = 0 then some (0, ⟨fk, cid, st, leftover⟩)
    else some (r, ⟨fk, cid, st, s.oldstuff⟩)
/-! Session creation, callerid_new (ciddeco.c lines 64 to 87): the PLL
round-off computation. -/

/-- Samples per bit: samp_rate / (float) baud_rate (ciddeco.c line 538),
modelled exactly in the rationals. -/
def ispb_q (samp baud : Nat) : ℚ := (samp : ℚ) / (baud : ℚ)

/-- The int field fskd.ispb receives the float samples-per-bit truncated
(ciddeco.c line 70); for positive values C truncation is the floor. -/
def fskd_ispb (samp baud : Nat) : ℤ := ⌊ispb_q samp baud⌋

/-- The divisor of ciddeco.c line 74: demod_param->ispb - cid->fskd.ispb,
that is the fractional part of the samples-per-bit. -/
def pll_divisor (samp baud : Nat) : ℚ :=
  ispb_q samp baud - (fskd_ispb samp baud : ℚ)

/-- pll_round_off (ciddeco.c line 74): 1 divided by the fractional part of
the samples-per-bit.  The code has no guard on the divisor; when it is zero
the float division produces infinity and the conversion to the int field
pll_round_off is undefined, modelled as none. -/
def pll_round_off (samp baud : Nat) : Option ℚ :=
  if pll_divisor samp baud = 0 then none else some (1 / pll_divisor samp baud)

/-! Concrete byte sequences used to settle the claims. -/

/-- An SDMF prefix [type, length, number marker, field length 1, one data
byte] whose byte sum is 4 + 8 + 2 + 1 + 241 = 256, a multiple of 256.  It
drives the decoder into the CHECKSUM state. -/
def zeroSumPrefix : List Nat := [0x04, 0x08, 0x02, 0x01, 0xF1]

/-- The SDMF example of the specification: type 0x04, length byte 0x08,
number marker, field length 7, digits 5551234, and the checksum byte 130
that makes the modulo-256 sum of the whole message zero. -/
def sdmfExample : List Nat :=
  [0x04, 0x08, 0x02, 0x07, 53, 53, 53, 49, 50, 51, 52, 130]

/-- A short SDMF message with a correct checksum byte: byte sum of the first
five bytes is 31 and 256 - 31 = 225. -/
def goodCkMsg : List Nat := [0x04, 0x08, 0x02, 0x01, 0x10, 225]

/-- The same message with a wrong checksum byte 153. -/
def badCkMsg : List Nat := [0x04, 0x08, 0x02, 0x01, 0x10, 153]

/-- An MDMF message whose single date-and-time field declares length 255:
259 bytes in total, never reaching a terminal state, so every byte is
appended to rawdata. -/
def overflowMsg : List Nat := [0x80, 0x00, 0x01, 0xFF] ++ List.replicate 255 7

/-- A complete MDMF message with a correct checksum whose date field starts
with the ASCII digits 9 and 9, so the extractor computes month 99. -/
def month99Msg : List Nat :=
  [0x80, 0x11, 0x01, 0x08, 57, 57, 48, 49, 49, 50, 48, 48,
   0x07, 0x01, 65, 0x02, 0x01, 53, 79]

/-- First-session message for the isolation claim: an SDMF message carrying
a name field and then a number field, with the correct checksum byte 117
(byte sum of the first eight bytes is 139 and 256 - 139 = 117).  The SDMF
branch of dataFinish clears number_field but not name_field. -/
def isolationFirstMsg : List Nat :=
  [0x04, 0x0A, 0x07, 0x01, 0x41, 0x02, 0x01, 0x31, 117]

/-- Second-session message for the isolation claim: a valid MDMF message
with an 8-byte date field, then the number field, then the name field, with
correct checksum byte 96. -/
def isolationSecondMsg : List Nat :=
  [0x80, 0x11, 0x01, 0x08, 48, 49, 48, 49, 49, 50, 48, 48,
   0x02, 0x01, 0x35, 0x07, 0x01, 0x41, 96]

/-- Relation between two copies of the static variables under which a run of
the decoder from the same session state cannot distinguish them: the two
field flags and the message offset agree, the data counter agrees whenever
the decoder is in the DATA state (the only state that reads it), and the
message type agrees whenever the decoder has left the MESSAGE_TYPE state
other than into UNKNOWN (msg_type is written before any state that reads
it). -/
def StaticsAgree (c : Cid) (s s' : Statics) : Prop :=
  s.name_field = s'.name_field ∧ s.number_field = s'.number_field ∧
  s.msg_off = s'.msg_off ∧
  (c.sawflag = DATA → s.data_field = s'.data_field) ∧
  (c.sawflag ≠ MESSAGE_TYPE → c.sawflag ≠ UNKNOWN → s.msg_type = s'.msg_type)

/-! Helper definitions used by the proofs: the write trace of a decode run
and the two MDMF message shapes of the field-order property. -/

/-- The sequence of writes rawdata[off] = b0, rawdata[off+1] = b1, ... that
a run of decode_CID_msg performs. -/
def writeList : (Nat → Nat) → Nat → List Nat → (Nat → Nat)
  | raw, _, [] => raw
  | raw, off, b :: bs => writeList (Function.update raw off b) (off + 1) bs

/-- An MDMF message body (all bytes except the checksum): type, length,
an 8-position date field group, then the name field group followed by the
number field group. -/
def bodyNameFirst (L : Nat) (date nm num : List Nat) : List Nat :=
  [MDMF, L, DATE_TIME, date.length] ++
    (date ++ ([NAME, nm.length] ++ (nm ++ ([NUM, num.length] ++ num))))

/-- The same message body with the number field group before the name field
group. -/
def bodyNumFirst (L : Nat) (date nm num : List Nat) : List Nat :=
  [MDMF, L, DATE_TIME, date.length] ++
    (date ++ ([NUM, num.length] ++ (num ++ ([NAME, nm.length] ++ nm))))

/-- The full name-first MDMF message including the trailing checksum byte. -/
def msgNameFirst (L : Nat) (date nm num : List Nat) (ck : Nat) : List Nat :=
  bodyNameFirst L date nm num ++ [ck]

/-- The full number-first MDMF message including the trailing checksum byte. -/
def msgNumFirst (L : Nat) (date nm num : List Nat) (ck : Nat) : List Nat :=
  bodyNumFirst L date nm num ++ [ck]
/-- The string formed from the bytes of l, as the sprintf loops of
get_CID_info produce it. -/
def charsOf (l : List Nat) : String :=
  String.mk ((List.range l.length).map fun i => byteChar (l.getD i 0))

/-- The record get_CID_info produces from a message whose 8 date bytes,
name bytes and number bytes are the given lists, whichever of the two
layouts carried them. -/
def extractedRecord (date nm num : List Nat) (d : CidData) : Option CidData :=
  (monthName ((((date.getD 0 0 : Nat) : Int) - 48) * 10 +
      (((date.getD 1 0 : Nat) : Int) - 48))).map fun m =>
    { d with
      date := m ++ " " ++ String.mk [byteChar (date.getD 2 0), byteChar (date.getD 3 0)],
      call_time := String.mk [byteChar (date.getD 4 0), byteChar (date.getD 5 0)] ++
        " hr : " ++ String.mk [byteChar (date.getD 6 0), byteChar (date.getD 7 0)] ++
        " min",
      name := charsOf nm,
      number := charsOf num }

/-! Helper lemmas. -/

lemma decode_step_agree (c : Cid) (s s' : Statics) (a : Nat)
    (h : StaticsAgree c s s') :
    (decode_CID_msg c s a).1 = (decode_CID_msg c s' a).1 ∧
    (decode_CID_msg c s a).2.2 = (decode_CID_msg c s' a).2.2 ∧
    StaticsAgree (decode_CID_msg c s a).1 (decode_CID_msg c s a).2.1
      (decode_CID_msg c s' a).2.1 := by
  obtain ⟨hn, hnum, hoff, hdf, hmt⟩ := h
  by_cases h0 : c.sawflag = MESSAGE_TYPE
  · by_cases hv : a = MDMF ∨ a = SDMF
    · simp [decode_CID_msg, StaticsAgree, h0, hv, hoff, hn, hnum, MESSAGE_TYPE,
        MESSAGE_LENGTH, DATA_TYPE, DATA_LENGTH, DATA, CHECKSUM, UNKNOWN]
    · simp [decode_CID_msg, StaticsAgree, h0, hv, hoff, hn, hnum, MESSAGE_TYPE,
        MESSAGE_LENGTH, DATA_TYPE, DATA_LENGTH, DATA, CHECKSUM, UNKNOWN]
  · have hmt' : c.sawflag ≠ UNKNOWN → s.msg_type = s'.msg_type := hmt h0
    by_cases h1 : c.sawflag = MESSAGE_LENGTH
    · have := hmt' (by simp [h1, MESSAGE_LENGTH, UNKNOWN])
      simp [decode_CID_msg, StaticsAgree, h0, h1, hoff, hn, hnum, this,
        MESSAGE_TYPE, MESSAGE_LENGTH, DATA_TYPE, DATA_LENGTH, DATA, CHECKSUM,
        UNKNOWN]
    · by_cases h2 : c.sawflag = DATA_TYPE
      · have := hmt' (by simp [h2, DATA_TYPE, UNKNOWN])
        by_cases hk : a = DATE_TIME ∨ a = NUM ∨ a = NO_NUM ∨ a = NAME ∨ a = NO_NAME
        · simp [decode_CID_msg, StaticsAgree, h0, h1, h2, hk, hoff, hn, hnum,
            this, MESSAGE_TYPE, MESSAGE_LENGTH, DATA_TYPE, DATA_LENGTH, DATA,
            CHECKSUM, UNKNOWN]
        · simp [decode_CID_msg, StaticsAgree, h0, h1, h2, hk, hoff, hn, hnum,
            this, MESSAGE_TYPE, MESSAGE_LENGTH, DATA_TYPE, DATA_LENGTH, DATA,
            CHECKSUM, UNKNOWN]
      · by_cases h3 : c.sawflag = DATA_LENGTH
        · have := hmt' (by simp [h3, DATA_LENGTH, UNKNOWN])
          simp [decode_CID_msg, StaticsAgree, h0, h1, h2, h3, hoff, hn, hnum,
            this, MESSAGE_TYPE, MESSAGE_LENGTH, DATA_TYPE, DATA_LENGTH, DATA,
            CHECKSUM, UNKNOWN]
        · by_cases h4 : c.sawflag = DATA
          · have hmteq := hmt' (by simp [h4, DATA, UNKNOWN])
            have hdfeq := hdf h4
            by_cases hz : s.data_field - 1 = 0
            · simp only [decode_CID_msg, h0, h1, h2, h3, h4, hoff, hdfeq,
                hmteq, if_false, if_true]
              simp [dataFinish, StaticsAgree, hz, hoff, hn, hnum, hmteq,
                hdfeq, MESSAGE_TYPE, MESSAGE_LENGTH, DATA_TYPE, DATA_LENGTH,
                DATA, CHECKSUM, UNKNOWN]
            · simp [decode_CID_msg, StaticsAgree, h0, h1, h2, h3, h4, hz,
                hoff, hn, hnum, hmteq, hdfeq, MESSAGE_TYPE, MESSAGE_LENGTH,
                DATA_TYPE, DATA_LENGTH, DATA, CHECKSUM, UNKNOWN]
          · by_cases h5 : c.sawflag = CHECKSUM
            · simp [decode_CID_msg, StaticsAgree, h0, h1, h2, h3, h4, h5,
                hoff, hn, hnum, hmt', MESSAGE_TYPE, MESSAGE_LENGTH, DATA_TYPE,
                DATA_LENGTH, DATA, CHECKSUM, UNKNOWN]
            · by_cases h6 : c.sawflag = UNKNOWN
              · simp [decode_CID_msg, StaticsAgree, h0, h1, h2, h3, h4, h5,
                  h6, hoff, hn, hnum, MESSAGE_TYPE, MESSAGE_LENGTH, DATA_TYPE,
                  DATA_LENGTH, DATA, CHECKSUM, UNKNOWN]
              · have hmteq := hmt' h6
                simp only [MESSAGE_TYPE, MESSAGE_LENGTH, DATA_TYPE,
                  DATA_LENGTH, DATA, CHECKSUM, UNKNOWN] at h0 h1 h2 h3 h4 h5 h6
                simp [decode_CID_msg, StaticsAgree, h0, h1, h2, h3, h4, h5,
                  h6, hoff, hn, hnum, hmteq, MESSAGE_TYPE, MESSAGE_LENGTH,
                  DATA_TYPE, DATA_LENGTH, DATA, CHECKSUM, UNKNOWN]

lemma decode_list_agree (bs : List Nat) :
    ∀ (c : Cid) (s s' : Statics), StaticsAgree c s s' →
    (decode_list c s bs).1 = (decode_list c s' bs).1 ∧
    (decode_list c s bs).2.2 = (decode_list c s' bs).2.2 := by
  induction bs with
  | nil => intro c s s' _; exact ⟨rfl, rfl⟩
  | cons b t ih =>
    intro c s s' h
    obtain ⟨hc, hr, ha⟩ := decode_step_agree c s s' b h
    simp only [decode_list]
    by_cases hz : (decode_CID_msg c s b).2.2 = 0
    · rw [if_pos hz, if_pos (hr ▸ hz)]
      rw [← hc]
      exact ih (decode_CID_msg c s b).1 (decode_CID_msg c s b).2.1
        (decode_CID_msg c s' b).2.1 ha
    · rw [if_neg hz, if_neg (hr ▸ hz)]
      exact ⟨hc, hr⟩

lemma feed_loop_zero_result {σ : Type} (fs : FskSerial σ) (ispb : Nat) :
    ∀ (fuel : Nat) (fk : σ) (cid : Cid) (st : Statics) (buf : List Int)
      (fk1 : σ) (cid1 : Cid) (st1 : Statics) (leftover : List Int),
      feed_loop fs ispb fuel fk cid st buf = some (0, fk1, cid1, st1, leftover) →
      leftover.length < ispb * 12 ∧ ∃ n, leftover = buf.drop n := by
  intro fuel
  induction fuel with
  | zero =>
    intro fk cid st buf fk1 cid1 st1 leftover h
    simp [feed_loop] at h
  | succ n ih =>
    intro fk cid st buf fk1 cid1 st1 leftover h
    simp only [feed_loop] at h
    by_cases hg : ispb * 12 ≤ buf.length
    · rw [if_pos hg] at h
      rcases hfs : fs fk buf with ⟨fk2, c, ob⟩
      rw [hfs] at h
      cases ob with
      | none =>
        obtain ⟨hlen, n2, hdrop⟩ := ih _ _ _ _ _ _ _ _ h
        exact ⟨hlen, n2 + c, by rw [hdrop, List.drop_drop, Nat.add_comm]⟩
      | some b =>
        have h2 : (if (decode_CID_msg cid st b).2.2 = 0 then
            feed_loop fs ispb n fk2 (decode_CID_msg cid st b).1
              (decode_CID_msg cid st b).2.1 (buf.drop c)
          else
            some ((decode_CID_msg cid st b).2.2, fk2, (decode_CID_msg cid st b).1,
              (decode_CID_msg cid st b).2.1, buf.drop c))
            = some (0, fk1, cid1, st1, leftover) := h
        by_cases hr : (decode_CID_msg cid st b).2.2 = 0
        · rw [if_pos hr] at h2
          obtain ⟨hlen, n2, hdrop⟩ := ih _ _ _ _ _ _ _ _ h2
          exact ⟨hlen, n2 + c, by rw [hdrop, List.drop_drop, Nat.add_comm]⟩
        · rw [if_neg hr] at h2
          simp only [Option.some.injEq, Prod.mk.injEq] at h2
          exact absurd h2.1 hr
    · rw [if_neg hg] at h
      simp only [Option.some.injEq, Prod.mk.injEq] at h
      obtain ⟨-, -, -, -, hbuf⟩ := h
      subst hbuf
      exact ⟨lt_of_not_le hg, 0, rfl⟩

lemma writeList_getD : ∀ (bs : List Nat) (raw : Nat → Nat) (off j : Nat),
    writeList raw off bs j =
      if off ≤ j ∧ j < off + bs.length then bs.getD (j - off) 0 else raw j := by
  intro bs
  induction bs with
  | nil =>
    intro raw off j
    simp only [writeList, List.length_nil, Nat.add_zero]
    rw [if_neg (by omega)]
  | cons b t ih =>
    intro raw off j
    rw [writeList, ih]
    by_cases h1 : off + 1 ≤ j ∧ j < off + 1 + t.length
    · rw [if_pos h1, if_pos (by simp; omega)]
      have hji : j - off = (j - (off + 1)) + 1 := by omega
      rw [hji]
      all_goals simp
    · rw [if_neg h1]
      by_cases h2 : j = off
      · subst h2
        rw [if_pos (by simp)]
        all_goals simp
      · rw [Function.update_noteq h2, if_neg (by simp; omega)]

lemma dataFinish_fst (s : Statics) :
    (dataFinish s).1 =
      if s.msg_type = MDMF ∧ s.name_field = true ∧ s.number_field = true then CHECKSUM
      else if s.msg_type = SDMF ∧ s.number_field = true then CHECKSUM
      else DATA_TYPE := by
  simp only [dataFinish]
  split_ifs <;> rfl

lemma dataFinish_name (s : Statics) :
    (dataFinish s).2.name_field =
      if s.msg_type = MDMF ∧ s.name_field = true ∧ s.number_field = true then false
      else s.name_field := by
  simp only [dataFinish]
  split_ifs <;> rfl

lemma dataFinish_number (s : Statics) :
    (dataFinish s).2.number_field =
      if s.msg_type = MDMF ∧ s.name_field = true ∧ s.number_field = true then false
      else if s.msg_type = SDMF ∧ s.number_field = true then false
      else s.number_field := by
  simp only [dataFinish]
  split_ifs <;> rfl

lemma dataFinish_msg_type (s : Statics) : (dataFinish s).2.msg_type = s.msg_type := by
  simp only [dataFinish]
  split_ifs <;> rfl

lemma dataFinish_msg_off (s : Statics) : (dataFinish s).2.msg_off = s.msg_off := by
  simp only [dataFinish]
  split_ifs <;> rfl

lemma dataFinish_data_field (s : Statics) :
    (dataFinish s).2.data_field = s.data_field := by
  simp only [dataFinish]
  split_ifs <;> rfl

lemma decode_step_zero (cid : Cid) (st : Statics) (b : Nat)
    (h : (decode_CID_msg cid st b).2.2 = 0) :
    (decode_CID_msg cid st b).1.rawdata = Function.update cid.rawdata st.msg_off b ∧
    (decode_CID_msg cid st b).1.cksum = cid.cksum + b ∧
    (decode_CID_msg cid st b).2.1.msg_off = st.msg_off + 1 := by
  simp only [decode_CID_msg] at h ⊢
  split_ifs at h ⊢ <;> simp_all [dataFinish_msg_off]

lemma decode_list_all_zero : ∀ (bs : List Nat) (cid : Cid) (st : Statics),
    (decode_list cid st bs).2.2 = 0 →
    (decode_list cid st bs).1.rawdata = writeList cid.rawdata st.msg_off bs ∧
    (decode_list cid st bs).1.cksum = cid.cksum + bs.sum ∧
    (decode_list cid st bs).2.1.msg_off = st.msg_off + bs.length := by
  intro bs
  induction bs with
  | nil => intro cid st _; simp [decode_list, writeList]
  | cons b t ih =>
    intro cid st h
    simp only [decode_list] at h ⊢
    by_cases hz : (decode_CID_msg cid st b).2.2 = 0
    · rw [if_pos hz] at h ⊢
      obtain ⟨hr, hc, hm⟩ := decode_step_zero cid st b hz
      obtain ⟨ihr, ihc, ihm⟩ := ih _ _ h
      refine ⟨?_, ?_, ?_⟩
      · rw [ihr, hr, hm]; rfl
      · rw [ihc, hc]; simp; omega
      · rw [ihm, hm]; simp; omega
    · rw [if_neg hz] at h; exact absurd h hz

lemma decode_list_append : ∀ (xs ys : List Nat) (cid : Cid) (st : Statics),
    decode_list cid st (xs ++ ys) =
      if (decode_list cid st xs).2.2 = 0 then
        decode_list (decode_list cid st xs).1 (decode_list cid st xs).2.1 ys
      else decode_list cid st xs := by
  intro xs
  induction xs with
  | nil => intro ys cid st; simp [decode_list]
  | cons b t ih =>
    intro ys cid st
    simp only [List.cons_append, decode_list]
    by_cases hz : (decode_CID_msg cid st b).2.2 = 0
    · rw [if_pos hz, if_pos hz]
      exact ih ys _ _
    · rw [if_neg hz, if_neg hz, if_neg hz]

lemma step_checksum (cid : Cid) (st : Statics) (a : Nat) (h : cid.sawflag = CHECKSUM) :
    decode_CID_msg cid st a =
      ({ cid with rawdata := Function.update cid.rawdata st.msg_off a },
       { st with msg_off := 0 }, 1) := by
  simp [decode_CID_msg, h, CHECKSUM, MESSAGE_TYPE, MESSAGE_LENGTH, DATA_TYPE,
    DATA_LENGTH, DATA]

lemma step_data_continue (cid : Cid) (st : Statics) (b : Nat)
    (h : cid.sawflag = DATA) (hne : ¬(st.data_field - 1 = 0)) :
    decode_CID_msg cid st b =
      ({ cid with rawdata := Function.update cid.rawdata st.msg_off b,
                  cksum := cid.cksum + b },
       { st with msg_off := st.msg_off + 1, data_field := st.data_field - 1 }, 0) := by
  simp [decode_CID_msg, h, hne, DATA, MESSAGE_TYPE, MESSAGE_LENGTH, DATA_TYPE,
    DATA_LENGTH, CHECKSUM, UNKNOWN]

lemma step_data_finish (cid : Cid) (st : Statics) (b : Nat)
    (h : cid.sawflag = DATA) (hz : st.data_field - 1 = 0) :
    decode_CID_msg cid st b =
      (⟨(dataFinish { st with msg_off := st.msg_off + 1, data_field := st.data_field - 1 }).1,
        cid.cksum + b, Function.update cid.rawdata st.msg_off b⟩,
       (dataFinish { st with msg_off := st.msg_off + 1, data_field := st.data_field - 1 }).2,
       0) := by
  simp [decode_CID_msg, h, hz, DATA, MESSAGE_TYPE, MESSAGE_LENGTH, DATA_TYPE,
    DATA_LENGTH, CHECKSUM, UNKNOWN]

lemma decode_data_run_control : ∀ (bs : List Nat) (cid : Cid) (st : Statics),
    cid.sawflag = DATA → st.data_field = (bs.length : Int) → bs ≠ [] →
    (decode_list cid st bs).2.2 = 0 ∧
    (decode_list cid st bs).1.sawflag = (dataFinish st).1 ∧
    (decode_list cid st bs).2.1.name_field = (dataFinish st).2.name_field ∧
    (decode_list cid st bs).2.1.number_field = (dataFinish st).2.number_field ∧
    (decode_list cid st bs).2.1.msg_type = st.msg_type ∧
    (decode_list cid st bs).2.1.data_field = 0 := by
  intro bs
  induction bs with
  | nil => intro cid st _ _ hne; exact absurd rfl hne
  | cons b t ih =>
    intro cid st hs hdf _
    rcases t with - | ⟨b2, t2⟩
    · have h1 : st.data_field - 1 = 0 := by rw [hdf]; simp
      simp only [decode_list, step_data_finish cid st b hs h1]
      simp [dataFinish_fst, dataFinish_name, dataFinish_number,
        dataFinish_msg_type, dataFinish_data_field, h1]
    · have hlen : st.data_field - 1 = ((b2 :: t2).length : Int) := by
        rw [hdf]; simp only [List.length_cons]; push_cast; omega
      have hne2 : ¬(st.data_field - 1 = 0) := by
        rw [hlen]
        simp only [List.length_cons]
        push_cast
        omega
      simp only [decode_list, step_data_continue cid st b hs hne2]
      norm_num
      have hihres := ih ({ cid with
          rawdata := Function.update cid.rawdata st.msg_off b,
          cksum := cid.cksum + b })
        ({ st with msg_off := st.msg_off + 1, data_field := st.data_field - 1 })
        (by simp [hs]) (by simp [hlen]) (by simp)
      simpa [dataFinish_fst, dataFinish_name, dataFinish_number,
        dataFinish_msg_type] using hihres

lemma field_pair_run (cid : Cid) (st : Statics) (ft ln : Nat)
    (h : cid.sawflag = DATA_TYPE) (hft : ft = NAME ∨ ft = NUM) :
    decode_list cid st [ft, ln] =
      ({ cid with
          rawdata := Function.update (Function.update cid.rawdata st.msg_off ft)
            (st.msg_off + 1) ln,
          sawflag := DATA, cksum := cid.cksum + ft + ln },
       { st with msg_off := st.msg_off + 1 + 1,
                 name_field := if ft = NAME then true else st.name_field,
                 number_field := if ft = NUM then true else st.number_field,
                 data_field := (ln : Int) }, 0) := by
  rcases hft with h7 | h2
  · subst h7
    simp [decode_list, decode_CID_msg, h, NAME, NUM, NO_NAME, NO_NUM, DATE_TIME,
      MESSAGE_TYPE, MESSAGE_LENGTH, DATA_TYPE, DATA_LENGTH, DATA, CHECKSUM, UNKNOWN]
  · subst h2
    simp [decode_list, decode_CID_msg, h, NAME, NUM, NO_NAME, NO_NUM, DATE_TIME,
      MESSAGE_TYPE, MESSAGE_LENGTH, DATA_TYPE, DATA_LENGTH, DATA, CHECKSUM, UNKNOWN]

lemma decode_list_single (cid : Cid) (st : Statics) (b : Nat) :
    decode_list cid st [b] =
      if (decode_CID_msg cid st b).2.2 = 0 then
        ((decode_CID_msg cid st b).1, (decode_CID_msg cid st b).2.1, 0)
      else decode_CID_msg cid st b := by
  simp only [decode_list]

lemma header_run (L dlen : Nat) :
    (decode_list Cid.new initStatics [MDMF, L, DATE_TIME, dlen]).2.2 = 0 ∧
    (decode_list Cid.new initStatics [MDMF, L, DATE_TIME, dlen]).1.sawflag = DATA ∧
    (decode_list Cid.new initStatics [MDMF, L, DATE_TIME, dlen]).2.1.data_field = (dlen : Int) ∧
    (decode_list Cid.new initStatics [MDMF, L, DATE_TIME, dlen]).2.1.name_field = false ∧
    (decode_list Cid.new initStatics [MDMF, L, DATE_TIME, dlen]).2.1.number_field = false ∧
    (decode_list Cid.new initStatics [MDMF, L, DATE_TIME, dlen]).2.1.msg_type = MDMF := by
  simp [decode_list, decode_CID_msg, Cid.new, initStatics, MDMF, SDMF, DATE_TIME,
    NAME, NO_NAME, NUM, NO_NUM, MESSAGE_TYPE, MESSAGE_LENGTH, DATA_TYPE,
    DATA_LENGTH, DATA, CHECKSUM, UNKNOWN]

lemma body_name_first_control (L : Nat) (date nm num : List Nat)
    (hd : date ≠ []) (hn : nm ≠ []) (hm : num ≠ []) :
    (decode_list Cid.new initStatics (bodyNameFirst L date nm num)).2.2 = 0 ∧
    (decode_list Cid.new initStatics (bodyNameFirst L date nm num)).1.sawflag
      = CHECKSUM := by
  obtain ⟨p0, p1, p2, p3, p4, p5⟩ := header_run L date.length
  have e1 : decode_list Cid.new initStatics (bodyNameFirst L date nm num)
      = decode_list (decode_list Cid.new initStatics [MDMF, L, DATE_TIME, date.length]).1
          (decode_list Cid.new initStatics [MDMF, L, DATE_TIME, date.length]).2.1
          (date ++ ([NAME, nm.length] ++ (nm ++ ([NUM, num.length] ++ num)))) := by
    rw [bodyNameFirst, decode_list_append, if_pos p0]
  obtain ⟨q0, q1, q2, q3, q4, q5⟩ :=
    decode_data_run_control date _ _ p1 p2 hd
  have f1 : (dataFinish (decode_list Cid.new initStatics
      [MDMF, L, DATE_TIME, date.length]).2.1).1 = DATA_TYPE := by
    rw [dataFinish_fst, if_neg (by simp [p3]), if_neg (by simp [p4])]
  have f1n : (dataFinish (decode_list Cid.new initStatics
      [MDMF, L, DATE_TIME, date.length]).2.1).2.name_field = false := by
    rw [dataFinish_name, if_neg (by simp [p3])]; exact p3
  have f1m : (dataFinish (decode_list Cid.new initStatics
      [MDMF, L, DATE_TIME, date.length]).2.1).2.number_field = false := by
    rw [dataFinish_number, if_neg (by simp [p3]), if_neg (by simp [p4])]; exact p4
  have e2 : decode_list Cid.new initStatics (bodyNameFirst L date nm num)
      = decode_list
          (decode_list (decode_list Cid.new initStatics [MDMF, L, DATE_TIME, date.length]).1
            (decode_list Cid.new initStatics [MDMF, L, DATE_TIME, date.length]).2.1 date).1
          (decode_list (decode_list Cid.new initStatics [MDMF, L, DATE_TIME, date.length]).1
            (decode_list Cid.new initStatics [MDMF, L, DATE_TIME, date.length]).2.1 date).2.1
          ([NAME, nm.length] ++ (nm ++ ([NUM, num.length] ++ num))) := by
    rw [e1, decode_list_append, if_pos q0]
  generalize hC1 : (decode_list (decode_list Cid.new initStatics [MDMF, L, DATE_TIME, date.length]).1
      (decode_list Cid.new initStatics [MDMF, L, DATE_TIME, date.length]).2.1 date)
      = R1 at e2 q1 q2 q3 q4 q5
  rw [f1] at q1
  rw [f1n] at q2
  rw [f1m] at q3
  rw [p5] at q4
  have e3 := field_pair_run R1.1 R1.2.1 NAME nm.length q1 (Or.inl rfl)
  have c2r : (decode_list R1.1 R1.2.1 [NAME, nm.length]).2.2 = 0 := by rw [e3]
  have c2saw : (decode_list R1.1 R1.2.1 [NAME, nm.length]).1.sawflag = DATA := by
    rw [e3]
  have s2df : (decode_list R1.1 R1.2.1 [NAME, nm.length]).2.1.data_field
      = (nm.length : Int) := by rw [e3]
  have s2nf : (decode_list R1.1 R1.2.1 [NAME, nm.length]).2.1.name_field = true := by
    rw [e3]; simp
  have s2num : (decode_list R1.1 R1.2.1 [NAME, nm.length]).2.1.number_field = false := by
    rw [e3]; simp [NAME, NUM, q3]
  have s2mt : (decode_list R1.1 R1.2.1 [NAME, nm.length]).2.1.msg_type = MDMF := by
    rw [e3]; exact q4
  have e4 : decode_list Cid.new initStatics (bodyNameFirst L date nm num)
      = decode_list (decode_list R1.1 R1.2.1 [NAME, nm.length]).1
          (decode_list R1.1 R1.2.1 [NAME, nm.length]).2.1
          (nm ++ ([NUM, num.length] ++ num)) := by
    rw [e2, decode_list_append, if_pos c2r]
  generalize hC2 : decode_list R1.1 R1.2.1 [NAME, nm.length] = R2
    at e4 c2saw s2df s2nf s2num s2mt
  obtain ⟨r0, r1, r2, r3, r4, r5⟩ :=
    decode_data_run_control nm R2.1 R2.2.1 c2saw s2df hn
  have g1 : (dataFinish R2.2.1).1 = DATA_TYPE := by
    rw [dataFinish_fst, if_neg (by simp [s2num]), if_neg (by simp [s2num])]
  have g1n : (dataFinish R2.2.1).2.name_field = true := by
    rw [dataFinish_name, if_neg (by simp [s2num])]; exact s2nf
  have g1m : (dataFinish R2.2.1).2.number_field = false := by
    rw [dataFinish_number, if_neg (by simp [s2num]), if_neg (by simp [s2num])]
    exact s2num
  rw [g1] at r1
  rw [g1n] at r2
  rw [g1m] at r3
  rw [s2mt] at r4
  have e5 : decode_list Cid.new initStatics (bodyNameFirst L date nm num)
      = decode_list (decode_list R2.1 R2.2.1 nm).1 (decode_list R2.1 R2.2.1 nm).2.1
          ([NUM, num.length] ++ num) := by
    rw [e4, decode_list_append, if_pos r0]
  generalize hC3 : decode_list R2.1 R2.2.1 nm = R3 at e5 r1 r2 r3 r4 r5
  have e6 := field_pair_run R3.1 R3.2.1 NUM num.length r1 (Or.inr rfl)
  have c4r : (decode_list R3.1 R3.2.1 [NUM, num.length]).2.2 = 0 := by rw [e6]
  have c4saw : (decode_list R3.1 R3.2.1 [NUM, num.length]).1.sawflag = DATA := by
    rw [e6]
  have s4df : (decode_list R3.1 R3.2.1 [NUM, num.length]).2.1.data_field
      = (num.length : Int) := by rw [e6]
  have s4nf : (decode_list R3.1 R3.2.1 [NUM, num.length]).2.1.name_field = true := by
    rw [e6]; simp [NUM, NAME, r2]
  have s4num : (decode_list R3.1 R3.2.1 [NUM, num.length]).2.1.number_field = true := by
    rw [e6]; simp
  have s4mt : (decode_list R3.1 R3.2.1 [NUM, num.length]).2.1.msg_type = MDMF := by
    rw [e6]; exact r4
  have e7 : decode_list Cid.new initStatics (bodyNameFirst L date nm num)
      = decode_list (decode_list R3.1 R3.2.1 [NUM, num.length]).1
          (decode_list R3.1 R3.2.1 [NUM, num.length]).2.1 num := by
    rw [e5, decode_list_append, if_pos c4r]
  generalize hC4 : decode_list R3.1 R3.2.1 [NUM, num.length] = R4
    at e7 c4saw s4df s4nf s4num s4mt
  obtain ⟨s0, s1, s2, s3, s4, s5⟩ :=
    decode_data_run_control num R4.1 R4.2.1 c4saw s4df hm
  have g2 : (dataFinish R4.2.1).1 = CHECKSUM := by
    rw [dataFinish_fst, if_pos ⟨s4mt, s4nf, s4num⟩]
  rw [g2] at s1
  rw [e7]
  exact ⟨s0, s1⟩

lemma body_num_first_control (L : Nat) (date nm num : List Nat)
    (hd : date ≠ []) (hn : nm ≠ []) (hm : num ≠ []) :
    (decode_list Cid.new initStatics (bodyNumFirst L date nm num)).2.2 = 0 ∧
    (decode_list Cid.new initStatics (bodyNumFirst L date nm num)).1.sawflag
      = CHECKSUM := by
  obtain ⟨p0, p1, p2, p3, p4, p5⟩ := header_run L date.length
  have e1 : decode_list Cid.new initStatics (bodyNumFirst L date nm num)
      = decode_list (decode_list Cid.new initStatics [MDMF, L, DATE_TIME, date.length]).1
          (decode_list Cid.new initStatics [MDMF, L, DATE_TIME, date.length]).2.1
          (date ++ ([NUM, num.length] ++ (num ++ ([NAME, nm.length] ++ nm)))) := by
    rw [bodyNumFirst, decode_list_append, if_pos p0]
  obtain ⟨q0, q1, q2, q3, q4, q5⟩ :=
    decode_data_run_control date _ _ p1 p2 hd
  have f1 : (dataFinish (decode_list Cid.new initStatics
      [MDMF, L, DATE_TIME, date.length]).2.1).1 = DATA_TYPE := by
    rw [dataFinish_fst, if_neg (by simp [p3]), if_neg (by simp [p4])]
  have f1n : (dataFinish (decode_list Cid.new initStatics
      [MDMF, L, DATE_TIME, date.length]).2.1).2.name_field = false := by
    rw [dataFinish_name, if_neg (by simp [p3])]; exact p3
  have f1m : (dataFinish (decode_list Cid.new initStatics
      [MDMF, L, DATE_TIME, date.length]).2.1).2.number_field = false := by
    rw [dataFinish_number, if_neg (by simp [p3]), if_neg (by simp [p4])]; exact p4
  have e2 : decode_list Cid.new initStatics (bodyNumFirst L date nm num)
      = decode_list
          (decode_list (decode_list Cid.new initStatics [MDMF, L, DATE_TIME, date.length]).1
            (decode_list Cid.new initStatics [MDMF, L, DATE_TIME, date.length]).2.1 date).1
          (decode_list (decode_list Cid.new initStatics [MDMF, L, DATE_TIME, date.length]).1
            (decode_list Cid.new initStatics [MDMF, L, DATE_TIME, date.length]).2.1 date).2.1
          ([NUM, num.length] ++ (num ++ ([NAME, nm.length] ++ nm))) := by
    rw [e1, decode_list_append, if_pos q0]
  generalize hC1 : (decode_list (decode_list Cid.new initStatics [MDMF, L, DATE_TIME, date.length]).1
      (decode_list Cid.new initStatics [MDMF, L, DATE_TIME, date.length]).2.1 date)
      = R1 at e2 q1 q2 q3 q4 q5
  rw [f1] at q1
  rw [f1n] at q2
  rw [f1m] at q3
  rw [p5] at q4
  have e3 := field_pair_run R1.1 R1.2.1 NUM num.length q1 (Or.inr rfl)
  have c2r : (decode_list R1.1 R1.2.1 [NUM, num.length]).2.2 = 0 := by rw [e3]
  have c2saw : (decode_list R1.1 R1.2.1 [NUM, num.length]).1.sawflag = DATA := by
    rw [e3]
  have s2df : (decode_list R1.1 R1.2.1 [NUM, num.length]).2.1.data_field
      = (num.length : Int) := by rw [e3]
  have s2nf : (decode_list R1.1 R1.2.1 [NUM, num.length]).2.1.name_field = false := by
    rw [e3]; simp [NUM, NAME, q2]
  have s2num : (decode_list R1.1 R1.2.1 [NUM, num.length]).2.1.number_field = true := by
    rw [e3]; simp
  have s2mt : (decode_list R1.1 R1.2.1 [NUM, num.length]).2.1.msg_type = MDMF := by
    rw [e3]; exact q4
  have e4 : decode_list Cid.new initStatics (bodyNumFirst L date nm num)
      = decode_list (decode_list R1.1 R1.2.1 [NUM, num.length]).1
          (decode_list R1.1 R1.2.1 [NUM, num.length]).2.1
          (num ++ ([NAME, nm.length] ++ nm)) := by
    rw [e2, decode_list_append, if_pos c2r]
  generalize hC2 : decode_list R1.1 R1.2.1 [NUM, num.length] = R2
    at e4 c2saw s2df s2nf s2num s2mt
  obtain ⟨r0, r1, r2, r3, r4, r5⟩ :=
    decode_data_run_control num R2.1 R2.2.1 c2saw s2df hm
  have g1 : (dataFinish R2.2.1).1 = DATA_TYPE := by
    rw [dataFinish_fst, if_neg (by simp [s2nf]), if_neg (by simp [s2mt, MDMF, SDMF])]
  have g1n : (dataFinish R2.2.1).2.name_field = false := by
    rw [dataFinish_name, if_neg (by simp [s2nf])]; exact s2nf
  have g1m : (dataFinish R2.2.1).2.number_field = true := by
    rw [dataFinish_number, if_neg (by simp [s2nf]), if_neg (by simp [s2mt, MDMF, SDMF])]
    exact s2num
  rw [g1] at r1
  rw [g1n] at r2
  rw [g1m] at r3
  rw [s2mt] at r4
  have e5 : decode_list Cid.new initStatics (bodyNumFirst L date nm num)
      = decode_list (decode_list R2.1 R2.2.1 num).1 (decode_list R2.1 R2.2.1 num).2.1
          ([NAME, nm.length] ++ nm) := by
    rw [e4, decode_list_append, if_pos r0]
  generalize hC3 : decode_list R2.1 R2.2.1 num = R3 at e5 r1 r2 r3 r4 r5
  have e6 := field_pair_run R3.1 R3.2.1 NAME nm.length r1 (Or.inl rfl)
  have c4r : (decode_list R3.1 R3.2.1 [NAME, nm.length]).2.2 = 0 := by rw [e6]
  have c4saw : (decode_list R3.1 R3.2.1 [NAME, nm.length]).1.sawflag = DATA := by
    rw [e6]
  have s4df : (decode_list R3.1 R3.2.1 [NAME, nm.length]).2.1.data_field
      = (nm.length : Int) := by rw [e6]
  have s4nf : (decode_list R3.1 R3.2.1 [NAME, nm.length]).2.1.name_field = true := by
    rw [e6]; simp
  have s4num : (decode_list R3.1 R3.2.1 [NAME, nm.length]).2.1.number_field = true := by
    rw [e6]; simp [NAME, NUM, r3]
  have s4mt : (decode_list R3.1 R3.2.1 [NAME, nm.length]).2.1.msg_type = MDMF := by
    rw [e6]; exact r4
  have e7 : decode_list Cid.new initStatics (bodyNumFirst L date nm num)
      = decode_list (decode_list R3.1 R3.2.1 [NAME, nm.length]).1
          (decode_list R3.1 R3.2.1 [NAME, nm.length]).2.1 nm := by
    rw [e5, decode_list_append, if_pos c4r]
  generalize hC4 : decode_list R3.1 R3.2.1 [NAME, nm.length] = R4
    at e7 c4saw s4df s4nf s4num s4mt
  obtain ⟨s0, s1, s2, s3, s4, s5⟩ :=
    decode_data_run_control nm R4.1 R4.2.1 c4saw s4df hn
  have g2 : (dataFinish R4.2.1).1 = CHECKSUM := by
    rw [dataFinish_fst, if_pos ⟨s4mt, s4nf, s4num⟩]
  rw [g2] at s1
  rw [e7]
  exact ⟨s0, s1⟩

lemma msg_name_first_run (L : Nat) (date nm num : List Nat) (ck : Nat)
    (hd : date ≠ []) (hn : nm ≠ []) (hm : num ≠ []) :
    (decode_list Cid.new initStatics (msgNameFirst L date nm num ck)).2.2 = 1 ∧
    (decode_list Cid.new initStatics (msgNameFirst L date nm num ck)).1.cksum
      = (bodyNameFirst L date nm num).sum ∧
    (decode_list Cid.new initStatics (msgNameFirst L date nm num ck)).1.rawdata
      = Function.update (writeList (fun _ => 0) 0 (bodyNameFirst L date nm num))
          (bodyNameFirst L date nm num).length ck := by
  obtain ⟨h0, hsaw⟩ := body_name_first_control L date nm num hd hn hm
  obtain ⟨hraw, hcks, hoff⟩ :=
    decode_list_all_zero (bodyNameFirst L date nm num) Cid.new initStatics h0
  have e : decode_list Cid.new initStatics (msgNameFirst L date nm num ck)
      = decode_list (decode_list Cid.new initStatics (bodyNameFirst L date nm num)).1
          (decode_list Cid.new initStatics (bodyNameFirst L date nm num)).2.1 [ck] := by
    rw [msgNameFirst, decode_list_append, if_pos h0]
  have estep := step_checksum
    (decode_list Cid.new initStatics (bodyNameFirst L date nm num)).1
    (decode_list Cid.new initStatics (bodyNameFirst L date nm num)).2.1 ck hsaw
  refine ⟨?_, ?_, ?_⟩
  · rw [e, decode_list_single, estep]
    norm_num
  · rw [e, decode_list_single, estep]
    norm_num
    rw [hcks]
    simp [Cid.new]
  · rw [e, decode_list_single, estep]
    norm_num
    rw [hraw, hoff]
    simp [Cid.new, initStatics]

lemma msg_num_first_run (L : Nat) (date nm num : List Nat) (ck : Nat)
    (hd : date ≠ []) (hn : nm ≠ []) (hm : num ≠ []) :
    (decode_list Cid.new initStatics (msgNumFirst L date nm num ck)).2.2 = 1 ∧
    (decode_list Cid.new initStatics (msgNumFirst L date nm num ck)).1.cksum
      = (bodyNumFirst L date nm num).sum ∧
    (decode_list Cid.new initStatics (msgNumFirst L date nm num ck)).1.rawdata
      = Function.update (writeList (fun _ => 0) 0 (bodyNumFirst L date nm num))
          (bodyNumFirst L date nm num).length ck := by
  obtain ⟨h0, hsaw⟩ := body_num_first_control L date nm num hd hn hm
  obtain ⟨hraw, hcks, hoff⟩ :=
    decode_list_all_zero (bodyNumFirst L date nm num) Cid.new initStatics h0
  have e : decode_list Cid.new initStatics (msgNumFirst L date nm num ck)
      = decode_list (decode_list Cid.new initStatics (bodyNumFirst L date nm num)).1
          (decode_list Cid.new initStatics (bodyNumFirst L date nm num)).2.1 [ck] := by
    rw [msgNumFirst, decode_list_append, if_pos h0]
  have estep := step_checksum
    (decode_list Cid.new initStatics (bodyNumFirst L date nm num)).1
    (decode_list Cid.new initStatics (bodyNumFirst L date nm num)).2.1 ck hsaw
  refine ⟨?_, ?_, ?_⟩
  · rw [e, decode_list_single, estep]
    norm_num
  · rw [e, decode_list_single, estep]
    norm_num
    rw [hcks]
    simp [Cid.new]
  · rw [e, decode_list_single, estep]
    norm_num
    rw [hraw, hoff]
    simp [Cid.new, initStatics]

lemma getD_skip (l l' : List Nat) (n k : Nat) (h : n = l.length + k) :
    (l ++ l').getD n 0 = l'.getD k 0 := by
  subst h
  rw [List.getD_append_right _ _ _ _ (Nat.le_add_right _ _)]
  congr 1
  omega

lemma body_name_first_getD (L : Nat) (date nm num : List Nat)
    (hd : date.length = 8) :
    (∀ k, k < 8 → (bodyNameFirst L date nm num).getD (4 + k) 0 = date.getD k 0) ∧
    (bodyNameFirst L date nm num).getD 12 0 = NAME ∧
    (bodyNameFirst L date nm num).getD 13 0 = nm.length ∧
    (∀ i, i < nm.length →
      (bodyNameFirst L date nm num).getD (14 + i) 0 = nm.getD i 0) ∧
    (bodyNameFirst L date nm num).getD (15 + nm.length) 0 = num.length ∧
    (∀ j, j < num.length →
      (bodyNameFirst L date nm num).getD (16 + nm.length + j) 0 = num.getD j 0) := by
  refine ⟨?_, ?_, ?_, ?_, ?_, ?_⟩
  · intro k hk
    rw [bodyNameFirst, getD_skip _ _ _ k (by simp)]
    rw [List.getD_append _ _ _ _ (by rw [hd]; exact hk)]
  · rw [bodyNameFirst, getD_skip _ _ _ 8 (by simp)]
    rw [getD_skip _ _ _ 0 (by rw [hd])]
    simp
  · rw [bodyNameFirst, getD_skip _ _ _ 9 (by simp)]
    rw [getD_skip _ _ _ 1 (by rw [hd])]
    simp
  · intro i hi
    rw [bodyNameFirst, getD_skip _ _ _ (10 + i) (by simp; omega)]
    rw [getD_skip _ _ _ (2 + i) (by rw [hd]; omega)]
    rw [getD_skip _ _ _ i (by simp)]
    rw [List.getD_append _ _ _ _ hi]
  · rw [bodyNameFirst, getD_skip _ _ _ (11 + nm.length) (by simp; omega)]
    rw [getD_skip _ _ _ (3 + nm.length) (by rw [hd]; omega)]
    rw [getD_skip _ _ _ (1 + nm.length) (by simp only [List.length_cons, List.length_nil]; omega)]
    rw [getD_skip _ _ _ 1 (by omega)]
    simp
  · intro j hj
    rw [bodyNameFirst, getD_skip _ _ _ (12 + nm.length + j) (by simp; omega)]
    rw [getD_skip _ _ _ (4 + nm.length + j) (by rw [hd]; omega)]
    rw [getD_skip _ _ _ (2 + nm.length + j) (by simp; omega)]
    rw [getD_skip _ _ _ (2 + j) (by omega)]
    rw [getD_skip _ _ _ j (by simp)]

lemma body_num_first_getD (L : Nat) (date nm num : List Nat)
    (hd : date.length = 8) :
    (∀ k, k < 8 → (bodyNumFirst L date nm num).getD (4 + k) 0 = date.getD k 0) ∧
    (bodyNumFirst L date nm num).getD 12 0 = NUM ∧
    (bodyNumFirst L date nm num).getD 13 0 = num.length ∧
    (∀ j, j < num.length →
      (bodyNumFirst L date nm num).getD (14 + j) 0 = num.getD j 0) ∧
    (bodyNumFirst L date nm num).getD (15 + num.length) 0 = nm.length ∧
    (∀ i, i < nm.length →
      (bodyNumFirst L date nm num).getD (16 + num.length + i) 0 = nm.getD i 0) := by
  refine ⟨?_, ?_, ?_, ?_, ?_, ?_⟩
  · intro k hk
    rw [bodyNumFirst, getD_skip _ _ _ k (by simp)]
    rw [List.getD_append _ _ _ _ (by rw [hd]; exact hk)]
  · rw [bodyNumFirst, getD_skip _ _ _ 8 (by simp)]
    rw [getD_skip _ _ _ 0 (by rw [hd])]
    simp
  · rw [bodyNumFirst, getD_skip _ _ _ 9 (by simp)]
    rw [getD_skip _ _ _ 1 (by rw [hd])]
    simp
  · intro j hj
    rw [bodyNumFirst, getD_skip _ _ _ (10 + j) (by simp; omega)]
    rw [getD_skip _ _ _ (2 + j) (by rw [hd]; omega)]
    rw [getD_skip _ _ _ j (by simp)]
    rw [List.getD_append _ _ _ _ hj]
  · rw [bodyNumFirst, getD_skip _ _ _ (11 + num.length) (by simp; omega)]
    rw [getD_skip _ _ _ (3 + num.length) (by rw [hd]; omega)]
    rw [getD_skip _ _ _ (1 + num.length) (by simp only [List.length_cons, List.length_nil]; omega)]
    rw [getD_skip _ _ _ 1 (by omega)]
    simp
  · intro i hi
    rw [bodyNumFirst, getD_skip _ _ _ (12 + num.length + i) (by simp; omega)]
    rw [getD_skip _ _ _ (4 + num.length + i) (by rw [hd]; omega)]
    rw [getD_skip _ _ _ (2 + num.length + i) (by simp; omega)]
    rw [getD_skip _ _ _ (2 + i) (by omega)]
    rw [getD_skip _ _ _ i (by simp)]

lemma get_info_name_layout (raw : Nat → Nat) (date nm num : List Nat) (d : CidData)
    (h4 : raw 4 = date.getD 0 0) (h5 : raw 5 = date.getD 1 0)
    (h6 : raw 6 = date.getD 2 0) (h7 : raw 7 = date.getD 3 0)
    (h8 : raw 8 = date.getD 4 0) (h9 : raw 9 = date.getD 5 0)
    (h10 : raw 10 = date.getD 6 0) (h11 : raw 11 = date.getD 7 0)
    (h12 : raw 12 = NAME) (h13 : raw 13 = nm.length)
    (hnm : ∀ i, i < nm.length → raw (14 + i) = nm.getD i 0)
    (hml : raw (15 + nm.length) = num.length)
    (hnum : ∀ j, j < num.length → raw (16 + nm.length + j) = num.getD j 0) :
    get_CID_info raw d = extractedRecord date nm num d := by
  have hname : ((List.range nm.length).map fun i => byteChar (raw (14 + i)))
      = ((List.range nm.length).map fun i => byteChar (nm.getD i 0)) :=
    List.map_congr_left fun i hi => by rw [hnm i (List.mem_range.mp hi)]
  have hnum2 : ((List.range num.length).map fun j => byteChar (raw (16 + nm.length + j)))
      = ((List.range num.length).map fun j => byteChar (num.getD j 0)) :=
    List.map_congr_left fun j hj => by rw [hnum j (List.mem_range.mp hj)]
  simp only [get_CID_info, extractedRecord, readBytes, charsOf, h4, h5, h6, h7,
    h8, h9, h10, h11, h12, h13, hml, hname, hnum2]
  simp

lemma get_info_num_layout (raw : Nat → Nat) (date nm num : List Nat) (d : CidData)
    (h4 : raw 4 = date.getD 0 0) (h5 : raw 5 = date.getD 1 0)
    (h6 : raw 6 = date.getD 2 0) (h7 : raw 7 = date.getD 3 0)
    (h8 : raw 8 = date.getD 4 0) (h9 : raw 9 = date.getD 5 0)
    (h10 : raw 10 = date.getD 6 0) (h11 : raw 11 = date.getD 7 0)
    (h12 : raw 12 = NUM) (h13 : raw 13 = num.length)
    (hnum : ∀ j, j < num.length → raw (14 + j) = num.getD j 0)
    (hnl : raw (15 + num.length) = nm.length)
    (hnm : ∀ i, i < nm.length → raw (16 + num.length + i) = nm.getD i 0) :
    get_CID_info raw d = extractedRecord date nm num d := by
  have hname : ((List.range nm.length).map fun i => byteChar (raw (16 + num.length + i)))
      = ((List.range nm.length).map fun i => byteChar (nm.getD i 0)) :=
    List.map_congr_left fun i hi => by rw [hnm i (List.mem_range.mp hi)]
  have hnum2 : ((List.range num.length).map fun j => byteChar (raw (14 + j)))
      = ((List.range num.length).map fun j => byteChar (num.getD j 0)) :=
    List.map_congr_left fun j hj => by rw [hnum j (List.mem_range.mp hj)]
  simp only [get_CID_info, extractedRecord, readBytes, charsOf, h4, h5, h6, h7,
    h8, h9, h10, h11, h12, h13, hnl, hname, hnum2]
  simp [NAME, NUM]

lemma extraction_name_first (L : Nat) (date nm num : List Nat) (ck : Nat)
    (hd : date.length = 8) (hn : nm ≠ []) (hm : num ≠ []) :
    get_CID_info
        (decode_list Cid.new initStatics (msgNameFirst L date nm num ck)).1.rawdata
        emptyData
      = extractedRecord date nm num emptyData := by
  have hd' : date ≠ [] := by
    intro h
    rw [h] at hd
    simp at hd
  obtain ⟨-, -, a3⟩ := msg_name_first_run L date nm num ck hd' hn hm
  obtain ⟨g4, g12, g13, g14, g15, g16⟩ := body_name_first_getD L date nm num hd
  have hlen1 : (bodyNameFirst L date nm num).length = 16 + nm.length + num.length := by
    simp [bodyNameFirst, hd]
    omega
  have hr1 : ∀ j, j < 16 + nm.length + num.length →
      (decode_list Cid.new initStatics (msgNameFirst L date nm num ck)).1.rawdata j
        = (bodyNameFirst L date nm num).getD j 0 := by
    intro j hj
    rw [a3, Function.update_noteq (by rw [hlen1]; omega), writeList_getD,
      if_pos ⟨Nat.zero_le j, by rw [hlen1]; omega⟩]
    simp
  refine get_info_name_layout _ date nm num emptyData ?_ ?_ ?_ ?_ ?_ ?_ ?_ ?_ ?_ ?_ ?_ ?_ ?_
  · rw [hr1 4 (by omega)]; exact g4 0 (by omega)
  · rw [hr1 5 (by omega)]; exact g4 1 (by omega)
  · rw [hr1 6 (by omega)]; exact g4 2 (by omega)
  · rw [hr1 7 (by omega)]; exact g4 3 (by omega)
  · rw [hr1 8 (by omega)]; exact g4 4 (by omega)
  · rw [hr1 9 (by omega)]; exact g4 5 (by omega)
  · rw [hr1 10 (by omega)]; exact g4 6 (by omega)
  · rw [hr1 11 (by omega)]; exact g4 7 (by omega)
  · rw [hr1 12 (by omega)]; exact g12
  · rw [hr1 13 (by omega)]; exact g13
  · intro i hi
    rw [hr1 (14 + i) (by omega)]
    exact g14 i hi
  · rw [hr1 (15 + nm.length) (by omega)]; exact g15
  · intro j hj
    rw [hr1 (16 + nm.length + j) (by omega)]
    exact g16 j hj

lemma extraction_num_first (L : Nat) (date nm num : List Nat) (ck : Nat)
    (hd : date.length = 8) (hn : nm ≠ []) (hm : num ≠ []) :
    get_CID_info
        (decode_list Cid.new initStatics (msgNumFirst L date nm num ck)).1.rawdata
        emptyData
      = extractedRecord date nm num emptyData := by
  have hd' : date ≠ [] := by
    intro h
    rw [h] at hd
    simp at hd
  obtain ⟨-, -, b3⟩ := msg_num_first_run L date nm num ck hd' hn hm
  obtain ⟨k4, k12, k13, k14, k15, k16⟩ := body_num_first_getD L date nm num hd
  have hlen2 : (bodyNumFirst L date nm num).length = 16 + nm.length + num.length := by
    simp [bodyNumFirst, hd]
    omega
  have hr2 : ∀ j, j < 16 + nm.length + num.length →
      (decode_list Cid.new initStatics (msgNumFirst L date nm num ck)).1.rawdata j
        = (bodyNumFirst L date nm num).getD j 0 := by
    intro j hj
    rw [b3, Function.update_noteq (by rw [hlen2]; omega), writeList_getD,
      if_pos ⟨Nat.zero_le j, by rw [hlen2]; omega⟩]
    simp
  refine get_info_num_layout _ date nm num emptyData ?_ ?_ ?_ ?_ ?_ ?_ ?_ ?_ ?_ ?_ ?_ ?_ ?_
  · rw [hr2 4 (by omega)]; exact k4 0 (by omega)
  · rw [hr2 5 (by omega)]; exact k4 1 (by omega)
  · rw [hr2 6 (by omega)]; exact k4 2 (by omega)
  · rw [hr2 7 (by omega)]; exact k4 3 (by omega)
  · rw [hr2 8 (by omega)]; exact k4 4 (by omega)
  · rw [hr2 9 (by omega)]; exact k4 5 (by omega)
  · rw [hr2 10 (by omega)]; exact k4 6 (by omega)
  · rw [hr2 11 (by omega)]; exact k4 7 (by omega)
  · rw [hr2 12 (by omega)]; exact k12
  · rw [hr2 13 (by omega)]; exact k13
  · intro j hj
    rw [hr2 (14 + j) (by omega)]
    exact k14 j hj
  · rw [hr2 (15 + num.length) (by omega)]; exact k15
  · intro i hi
    rw [hr2 (16 + num.length + i) (by omega)]
    exact k16 i hi

lemma body_sums_equal (L : Nat) (date nm num : List Nat) :
    (bodyNameFirst L date nm num).sum = (bodyNumFirst L date nm num).sum := by
  simp [bodyNameFirst, bodyNumFirst]
  omega

/-! The claims. -/

set_option maxRecDepth 40000

/-- C1.  The claim states that after any prefix reaching the Checksum state
the byte (256 - (sum mod 256)) mod 256 always yields Complete, equivalently
that a message is accepted exactly when the modulo-256 sum of all its bytes
including the checksum byte is zero; the doc comment of decode_CID_msg
(ciddeco.c lines 151 to 153) documents the same acceptance rule.  The code
compares the byte against 256 - (cksum & 0xff) without reducing 256 to 0:
after the prefix zeroSumPrefix the accumulated sum is 256, the byte the
claim demands is 0, the whole-message sum 256 + 0 is a multiple of 256, yet
checksum_ok is false, and indeed no byte in 0..255 is accepted.  The code
therefore contradicts its own documented checksum semantics. -/
theorem C1_zero_sum_checksum_rejected :
    (decode_list Cid.new initStatics zeroSumPrefix).1.sawflag = CHECKSUM ∧
    (decode_list Cid.new initStatics zeroSumPrefix).1.cksum = 256 ∧
    (256 + 0) % 256 = 0 ∧
    checksum_ok (decode_list Cid.new initStatics zeroSumPrefix).1.cksum 0 = false ∧
    (decode_list Cid.new initStatics (zeroSumPrefix ++ [0])).2.2 = 1 ∧
    ((List.range 256).all fun b =>
      !(checksum_ok (decode_list Cid.new initStatics zeroSumPrefix).1.cksum b)) = true := by
  decide

/-- C2 counterexample.  The claim states that a checksum mismatch is
surfaced as a terminal Error outcome ChecksumFailed distinct from Complete.
In the code the CHECKSUM state returns 1 whether the byte matches or not
(ciddeco.c lines 241 to 247, the outcomes differ only in a printf), so the
mismatching run of badCkMsg returns the same value 1 as the matching run of
goodCkMsg: the mismatch is not distinct from Complete. -/
theorem C2_checksum_mismatch_not_distinct :
    (decode_list Cid.new initStatics badCkMsg).2.2 = 1 ∧
    (decode_list Cid.new initStatics goodCkMsg).2.2 = 1 ∧
    checksum_ok (decode_list Cid.new initStatics badCkMsg).1.cksum 153 = false ∧
    checksum_ok (decode_list Cid.new initStatics goodCkMsg).1.cksum 225 = true := by
  decide

/-- C2 amended.  Every call of decode_CID_msg returns exactly one of 0
(needs more bytes), 1 (message complete) or -1 (unknown format), and in the
CHECKSUM state it returns 1 regardless of whether the checksum byte matches:
a checksum mismatch is not distinguishable from Complete in the returned
value and the decoded message is not discarded. -/
theorem C2_step_result_trichotomy (cid : Cid) (st : Statics) (a : Nat) :
    ((decode_CID_msg cid st a).2.2 = 0 ∨ (decode_CID_msg cid st a).2.2 = 1 ∨
      (decode_CID_msg cid st a).2.2 = -1) ∧
    (cid.sawflag = CHECKSUM → (decode_CID_msg cid st a).2.2 = 1) := by
  simp only [decode_CID_msg]
  split_ifs <;> simp_all [MESSAGE_TYPE, MESSAGE_LENGTH, DATA_TYPE, DATA_LENGTH,
    DATA, CHECKSUM]

/-- Witness for C2_step_result_trichotomy at a concrete state in the
CHECKSUM state and a mismatching byte. -/
theorem C2_step_result_trichotomy_witness :
    (decode_CID_msg ⟨CHECKSUM, 31, fun _ => 0⟩ initStatics 153).2.2 = 1 := by
  exact (C2_step_result_trichotomy ⟨CHECKSUM, 31, fun _ => 0⟩ initStatics 153).2 rfl

/-- C3.  The claim states that the SDMF example bytes decode to Complete
with number 5551234 and empty name.  The decoder does reach its accepting
terminal (return 1 with a matching checksum), but get_CID_info assumes the
MDMF layout: it decodes the month from offsets 4 and 5, which here hold the
digits 5 and 5, giving month 55 and an out-of-bounds read of the 12-entry
months table (modelled as none); the 12-byte message ends with the checksum
byte at offset 11, so offset 12 holds untouched zero memory, which matches
neither the name nor the number marker, and no number is ever extracted.  The specification example is the clear intent and the extractor
does not implement it. -/
theorem C3_sdmf_example_not_extracted :
    (decode_list Cid.new initStatics sdmfExample).2.2 = 1 ∧
    (decode_list Cid.new initStatics sdmfExample).1.cksum = 382 ∧
    checksum_ok (decode_list Cid.new initStatics sdmfExample).1.cksum 130 = true ∧
    (decode_list Cid.new initStatics sdmfExample).1.rawdata 4 = 53 ∧
    (decode_list Cid.new initStatics sdmfExample).1.rawdata 11 = 130 ∧
    (decode_list Cid.new initStatics sdmfExample).1.rawdata 12 = 0 ∧
    get_CID_info (decode_list Cid.new initStatics sdmfExample).1.rawdata emptyData
      = none := by
  decide

/-- C4 counterexample.  The claim states that after a session ends in
ChecksumFailed or Complete, a fresh session decoding a second valid message
produces a record independent of the first session and that no decoder
state survives.  The static variables of decode_CID_msg do survive: the
SDMF terminal branch clears number_field but not name_field (ciddeco.c
lines 234 to 236), so a first SDMF session carrying a name field ends in
Complete (return 1 with matching checksum byte 117) leaving name_field set.
The inherited flag makes the second, valid MDMF session leave the DATA
state for CHECKSUM as soon as its number field completes, before its name
field, so the extracted record differs from the record a truly fresh
decoder produces (the name is lost). -/
theorem C4_static_flag_survives_session :
    (decode_list Cid.new initStatics isolationFirstMsg).2.2 = 1 ∧
    checksum_ok (decode_list Cid.new initStatics isolationFirstMsg).1.cksum 117
      = true ∧
    (decode_list Cid.new initStatics isolationFirstMsg).2.1.name_field = true ∧
    get_CID_info
        (decode_list Cid.new
          (decode_list Cid.new initStatics isolationFirstMsg).2.1
          isolationSecondMsg).1.rawdata emptyData
      ≠ get_CID_info
        (decode_list Cid.new initStatics isolationSecondMsg).1.rawdata
        emptyData := by
  decide

/-- C4 amended.  The record of a session only depends on the surviving
static variables through name_field, number_field and msg_off: whenever the
inherited statics have both field flags clear and message offset zero (as
the Checksum terminal transition guarantees for MDMF sessions, and for SDMF
sessions without a name field), a fresh session decodes every byte list to
exactly the same session state and return value as a process whose statics
are pristine; the surviving msg_type and data_field values are dead.  The
name_field flag, however, can survive an SDMF session that carried a name
field and then alters the next session (see the counterexample). -/
theorem C4_isolation_with_clear_flags (st : Statics) (bs : List Nat)
    (h1 : st.name_field = false) (h2 : st.number_field = false)
    (h3 : st.msg_off = 0) :
    (decode_list Cid.new st bs).1 = (decode_list Cid.new initStatics bs).1 ∧
    (decode_list Cid.new st bs).2.2 = (decode_list Cid.new initStatics bs).2.2 := by
  refine decode_list_agree bs Cid.new st initStatics ⟨?_, ?_, ?_, ?_, ?_⟩
  · simpa [initStatics] using h1
  · simpa [initStatics] using h2
  · simpa [initStatics] using h3
  · intro hd
    exact absurd hd (by simp [Cid.new, MESSAGE_TYPE, DATA])
  · intro hd _
    exact absurd rfl hd

/-- Witness for C4_isolation_with_clear_flags: statics surviving with a
stale message type 0x04 and data counter 3 do not change the decode of a
valid MDMF message. -/
theorem C4_isolation_with_clear_flags_witness :
    (decode_list Cid.new ⟨false, false, 0x04, 0, 3⟩ isolationSecondMsg).1
      = (decode_list Cid.new initStatics isolationSecondMsg).1 ∧
    (decode_list Cid.new ⟨false, false, 0x04, 0, 3⟩ isolationSecondMsg).2.2
      = (decode_list Cid.new initStatics isolationSecondMsg).2.2 :=
  C4_isolation_with_clear_flags ⟨false, false, 0x04, 0, 3⟩ isolationSecondMsg
    rfl rfl rfl

/-- C5.  The claim states that the number of bytes appended to the message
buffer never exceeds the 256-entry rawdata capacity.  decode_CID_msg stores
every byte at rawdata[msg_off++] with no bound check (ciddeco.c line 170):
feeding the 259-byte overflowMsg, whose date field declares length 255,
leaves the decoder in a non-terminal state having appended 259 bytes, past
the declared capacity of the array. -/
theorem C5_rawdata_overflow :
    (decode_list Cid.new initStatics overflowMsg).2.1.msg_off = 259 ∧
    (decode_list Cid.new initStatics overflowMsg).2.2 = 0 ∧
    RAWDATA_CAPACITY < (decode_list Cid.new initStatics overflowMsg).2.1.msg_off := by
  decide

/-- C6.  The claim states that field extraction validates each length byte
against the remaining message bytes and the decoded month against the range
1 to 12, failing with MalformedMessage on a violation.  No such check and no
such error value exist: month99Msg is a complete message with a matching
checksum whose date digits give month 99, and get_CID_info unconditionally
reads months[month - 1], an out-of-bounds access of the 12-entry table
(modelled as none) instead of any error result. -/
theorem C6_month_not_validated :
    (decode_list Cid.new initStatics month99Msg).2.2 = 1 ∧
    checksum_ok (decode_list Cid.new initStatics month99Msg).1.cksum 79 = true ∧
    (decode_list Cid.new initStatics month99Msg).1.rawdata 4 = 57 ∧
    (decode_list Cid.new initStatics month99Msg).1.rawdata 5 = 57 ∧
    monthName 99 = none ∧
    get_CID_info (decode_list Cid.new initStatics month99Msg).1.rawdata emptyData
      = none := by
  decide

/-- C7 counterexample.  The claim states that a message-type byte outside
0x80 and 0x04 makes the feed call report UnknownFormat immediately, without
advancing any other decoder state.  Feeding the byte 0x05 into a fresh
decoder returns 0 (more bytes wanted), not the error value, and the byte is
appended to the message buffer, added to the checksum accumulator and the
message offset is advanced. -/
theorem C7_unknown_type_not_immediate :
    (decode_CID_msg Cid.new initStatics 5).2.2 = 0 ∧
    (decode_CID_msg Cid.new initStatics 5).2.2 ≠ -1 ∧
    (decode_CID_msg Cid.new initStatics 5).1.sawflag = UNKNOWN ∧
    (decode_CID_msg Cid.new initStatics 5).1.cksum = 5 ∧
    (decode_CID_msg Cid.new initStatics 5).1.rawdata 0 = 5 ∧
    (decode_CID_msg Cid.new initStatics 5).2.1.msg_off = 1 := by
  decide

/-- C7 amended.  A message-type byte outside 0x80 and 0x04 moves the decoder
to the Unknown state but the call consuming it returns 0; the byte is
appended to the message buffer and checksum accumulator and advances the
message offset; the error value -1 is only returned on the next byte fed. -/
theorem C7_unknown_type_deferred (cid : Cid) (st : Statics) (a b : Nat)
    (hs : cid.sawflag = MESSAGE_TYPE) (h1 : a ≠ MDMF) (h2 : a ≠ SDMF) :
    (decode_CID_msg cid st a).2.2 = 0 ∧
    (decode_CID_msg cid st a).1.sawflag = UNKNOWN ∧
    (decode_CID_msg cid st a).1.cksum = cid.cksum + a ∧
    (decode_CID_msg cid st a).1.rawdata st.msg_off = a ∧
    (decode_CID_msg cid st a).2.1.msg_off = st.msg_off + 1 ∧
    (decode_CID_msg (decode_CID_msg cid st a).1 (decode_CID_msg cid st a).2.1 b).2.2
      = -1 := by
  simp only [decode_CID_msg]
  simp [hs, h1, h2, MESSAGE_TYPE, MESSAGE_LENGTH, DATA_TYPE, DATA_LENGTH, DATA,
    CHECKSUM, UNKNOWN]

/-- Witness for C7_unknown_type_deferred at the byte 0x05 in a fresh
session. -/
theorem C7_unknown_type_deferred_witness :
    (decode_CID_msg Cid.new initStatics 5).2.2 = 0 ∧
    (decode_CID_msg Cid.new initStatics 5).1.sawflag = UNKNOWN ∧
    (decode_CID_msg Cid.new initStatics 5).1.cksum = Cid.new.cksum + 5 ∧
    (decode_CID_msg Cid.new initStatics 5).1.rawdata initStatics.msg_off = 5 ∧
    (decode_CID_msg Cid.new initStatics 5).2.1.msg_off = initStatics.msg_off + 1 ∧
    (decode_CID_msg (decode_CID_msg Cid.new initStatics 5).1
      (decode_CID_msg Cid.new initStatics 5).2.1 7).2.2 = -1 :=
  C7_unknown_type_deferred Cid.new initStatics 5 7 rfl (by decide) (by decide)

/-- C10.  callerid_new computes pll_round_off as 1 divided by the fractional
part of the samples-per-bit (ciddeco.c line 74) with no guard: whenever the
sample rate is an exact integer multiple of the baud rate the divisor is
zero and the stored value is undefined. -/
theorem C10_pll_round_off_division_by_zero (samp baud : Nat)
    (hb : 0 < baud) (hdvd : baud ∣ samp) :
    pll_divisor samp baud = 0 ∧ pll_round_off samp baud = none := by
  obtain ⟨k, rfl⟩ := hdvd
  have hbq : (baud : ℚ) ≠ 0 := Nat.cast_ne_zero.mpr hb.ne'
  have hq : ispb_q (baud * k) baud = (k : ℚ) := by
    unfold ispb_q
    push_cast
    field_simp
  have hdiv : pll_divisor (baud * k) baud = 0 := by
    unfold pll_divisor fskd_ispb
    rw [hq]
    simp
  exact ⟨hdiv, by simp [pll_round_off, hdiv]⟩

/-- Witness for C10_pll_round_off_division_by_zero at the configuration
48000 Hz and 1200 baud. -/
theorem C10_pll_round_off_division_by_zero_witness :
    pll_divisor 48000 1200 = 0 ∧ pll_round_off 48000 1200 = none :=
  C10_pll_round_off_division_by_zero 48000 1200 (by decide) (by decide)

/-- C8.  For every valid MDMF message carrying a Date and Time field (8
bytes), a name field and a number field, decoding reaches the terminal
checksum return (value 1) with the same checksum accumulator whether the
name field group precedes the number field group or conversely, and field
extraction on the two resulting message buffers yields identical records. -/
theorem C8_field_order_invariance (L : Nat) (date nm num : List Nat) (ck : Nat)
    (hd : date.length = 8) (hn : nm ≠ []) (hm : num ≠ []) :
    (decode_list Cid.new initStatics (msgNameFirst L date nm num ck)).2.2 = 1 ∧
    (decode_list Cid.new initStatics (msgNumFirst L date nm num ck)).2.2 = 1 ∧
    (decode_list Cid.new initStatics (msgNameFirst L date nm num ck)).1.cksum
      = (decode_list Cid.new initStatics (msgNumFirst L date nm num ck)).1.cksum ∧
    checksum_ok (decode_list Cid.new initStatics (msgNameFirst L date nm num ck)).1.cksum ck
      = checksum_ok (decode_list Cid.new initStatics (msgNumFirst L date nm num ck)).1.cksum ck ∧
    get_CID_info
        (decode_list Cid.new initStatics (msgNameFirst L date nm num ck)).1.rawdata
        emptyData
      = get_CID_info
        (decode_list Cid.new initStatics (msgNumFirst L date nm num ck)).1.rawdata
        emptyData := by
  have hd' : date ≠ [] := by
    intro h
    rw [h] at hd
    simp at hd
  obtain ⟨a1, a2, -⟩ := msg_name_first_run L date nm num ck hd' hn hm
  obtain ⟨b1, b2, -⟩ := msg_num_first_run L date nm num ck hd' hn hm
  have hsum : (decode_list Cid.new initStatics (msgNameFirst L date nm num ck)).1.cksum
      = (decode_list Cid.new initStatics (msgNumFirst L date nm num ck)).1.cksum := by
    rw [a2, b2]
    exact body_sums_equal L date nm num
  refine ⟨a1, b1, hsum, by rw [hsum], ?_⟩
  rw [extraction_name_first L date nm num ck hd hn hm,
    extraction_num_first L date nm num ck hd hn hm]

/-- Witness for C8_field_order_invariance at a concrete valid MDMF message:
date bytes 01 01 12 00, name byte 65, number byte 53, length byte 19 and
checksum byte 94. -/
theorem C8_field_order_invariance_witness :
    (decode_list Cid.new initStatics
      (msgNameFirst 19 [48, 49, 48, 49, 49, 50, 48, 48] [65] [53] 94)).2.2 = 1 ∧
    (decode_list Cid.new initStatics
      (msgNumFirst 19 [48, 49, 48, 49, 49, 50, 48, 48] [65] [53] 94)).2.2 = 1 ∧
    (decode_list Cid.new initStatics
      (msgNameFirst 19 [48, 49, 48, 49, 49, 50, 48, 48] [65] [53] 94)).1.cksum
      = (decode_list Cid.new initStatics
        (msgNumFirst 19 [48, 49, 48, 49, 49, 50, 48, 48] [65] [53] 94)).1.cksum ∧
    checksum_ok (decode_list Cid.new initStatics
        (msgNameFirst 19 [48, 49, 48, 49, 49, 50, 48, 48] [65] [53] 94)).1.cksum 94
      = checksum_ok (decode_list Cid.new initStatics
        (msgNumFirst 19 [48, 49, 48, 49, 49, 50, 48, 48] [65] [53] 94)).1.cksum 94 ∧
    get_CID_info (decode_list Cid.new initStatics
        (msgNameFirst 19 [48, 49, 48, 49, 49, 50, 48, 48] [65] [53] 94)).1.rawdata
        emptyData
      = get_CID_info (decode_list Cid.new initStatics
        (msgNumFirst 19 [48, 49, 48, 49, 49, 50, 48, 48] [65] [53] 94)).1.rawdata
        emptyData :=
  C8_field_order_invariance 19 [48, 49, 48, 49, 49, 50, 48, 48] [65] [53] 94
    rfl (by decide) (by decide)

/-- C9.  Whenever callerid_feed returns 0 (needs more samples), the
residual samples, in order, have become the new carry-over buffer and its
length is smaller than one minimal decode window of ispb * 12 samples: the
loop guard only lets the loop exit to the tail copy when fewer than
ispb * 12 samples remain, and the tail copy stores exactly the unconsumed
suffix of the concatenation of the old carry-over and the new input. -/
theorem C9_carryover_window_bound {σ : Type} (fs : FskSerial σ) (ispb : Nat)
    (s : Session σ) (input : List Int) (s1 : Session σ)
    (h : callerid_feed fs ispb s input = some (0, s1)) :
    s1.oldstuff.length < ispb * 12 ∧
    ∃ n, s1.oldstuff = (s.oldstuff ++ input).drop n := by
  simp only [callerid_feed] at h
  rcases hfl : feed_loop fs ispb ((s.oldstuff ++ input).length + 1) s.fsk
      s.cid s.st (s.oldstuff ++ input) with - | ⟨r, fk, cid, st, leftover⟩
  · rw [hfl] at h
    exact absurd h (by simp)
  · rw [hfl] at h
    have h2 : (if r = 0 then some ((0 : Int), (⟨fk, cid, st, leftover⟩ : Session σ))
        else some (r, (⟨fk, cid, st, s.oldstuff⟩ : Session σ)))
        = some (0, s1) := h
    by_cases hr : r = 0
    · rw [if_pos hr] at h2
      simp only [Option.some.injEq, Prod.mk.injEq] at h2
      subst hr
      have hres := feed_loop_zero_result fs ispb _ _ _ _ _ _ _ _ _ hfl
      rw [← h2.2]
      exact hres
    · rw [if_neg hr] at h2
      simp only [Option.some.injEq, Prod.mk.injEq] at h2
      exact absurd h2.1 hr

/-- Witness for C9_carryover_window_bound: a bit recoverer that always
consumes one sample and never completes a byte, window constant ispb = 3,
an empty carry-over buffer and three input samples; the feed call returns 0
and stores the three samples as the carry-over buffer. -/
theorem C9_carryover_window_bound_witness :
    (([5, 6, 7] : List Int)).length < 3 * 12 ∧
    ∃ n, ([5, 6, 7] : List Int) = (([] : List Int) ++ [5, 6, 7]).drop n := by
  have h : callerid_feed (σ := Unit) (fun _ _ => ((), 1, none)) 3
      ⟨(), Cid.new, initStatics, []⟩ [5, 6, 7]
      = some (0, ⟨(), Cid.new, initStatics, [5, 6, 7]⟩) := rfl
  simpa using C9_carryover_window_bound (σ := Unit) (fun _ _ => ((), 1, none)) 3
    ⟨(), Cid.new, initStatics, []⟩ [5, 6, 7] ⟨(), Cid.new, initStatics, [5, 6, 7]⟩ h

end CID
